import Mathlib

/-!
A shallow embedding of `build-script-helper.py` from swift-docc.

The script orchestrates building, testing and installing the `docc` product
by shelling out to an external toolchain.  External effects (process
invocations, stdout/stderr output) are modelled as an explicit event trace;
outcomes of external commands are provided by a `World` record.  Python
exceptions are modelled by the `Res` type: `cpe` is
`subprocess.CalledProcessError`, `exit` is `sys.exit`, and `pyerr` stands for
any other uncaught exception (e.g. `IndexError`); an uncaught exception
terminates a Python process with status 1.
-/

namespace BuildScript

/-- Events observable from outside the script: an external process
invocation, a line on stdout, a line on stderr. -/
inductive Event where
  | exec (cmd : List String)
  | out (msg : String)
  | err (msg : String)
deriving DecidableEq

/-- Result of a (possibly effectful) piece of the script.  `ok` is normal
return, `exit` is `sys.exit(code)`, `cpe` is `subprocess.CalledProcessError`
carrying the failed command, `pyerr` is any other uncaught exception. -/
inductive Res (α : Type) where
  | ok (a : α)
  | exit (code : Nat)
  | cpe (cmd : List String)
  | pyerr
deriving DecidableEq

/-- Sequencing two effectful computations: events accumulate, exceptions
and exits propagate.  (Models Python's sequential statements.) -/
def mbind {α β : Type} (x : List Event × Res α) (f : α → List Event × Res β) :
    List Event × Res β :=
  match x with
  | (evs, Res.ok a) => (evs ++ (f a).1, (f a).2)
  | (evs, Res.exit n) => (evs, Res.exit n)
  | (evs, Res.cpe c) => (evs, Res.cpe c)
  | (evs, Res.pyerr) => (evs, Res.pyerr)

/-- Models `try: ... except subprocess.CalledProcessError as e: ...`.
Only `cpe` is caught; `exit` (i.e. `SystemExit`) and other exceptions
propagate. -/
def tryCPE {α : Type} (x : List Event × Res α) (handler : List String → List Event × Res α) :
    List Event × Res α :=
  match x with
  | (evs, Res.cpe c) => (evs ++ (handler c).1, (handler c).2)
  | other => other

/-- `startsWithChars p s` is true when the char list `p` is an initial
segment of `s` (used to model Python's `str.startswith`). -/
def startsWithChars : List Char → List Char → Bool
  | [], _ => true
  | _ :: _, [] => false
  | p :: ps, c :: cs => p == c && startsWithChars ps cs

/-- Python `s.startswith(p)`. -/
def strStartsWith (s p : String) : Bool := startsWithChars p.data s.data

/-- Python `s.endswith(p)`. -/
def strEndsWith (s p : String) : Bool := startsWithChars p.data.reverse s.data.reverse

/-- Python `p in s` (substring test). -/
def strContains (s p : String) : Bool :=
  (List.range (s.data.length + 1)).any (fun i => startsWithChars p.data (s.data.drop i))

/-- POSIX `os.path.isabs`. -/
def isAbs (p : String) : Bool := strStartsWith p "/"

/-- POSIX `os.path.join` for two components. -/
def pathJoin (a b : String) : String :=
  if isAbs b then b
  else if a == "" || strEndsWith a "/" then a ++ b
  else a ++ "/" ++ b

/-- POSIX `os.path.basename`. -/
def basename (p : String) : String :=
  String.mk ((p.data.reverse.takeWhile (fun c => !(c == '/'))).reverse)

/-- POSIX `os.path.dirname`. -/
def dirname (p : String) : String :=
  let t := p.data.reverse.takeWhile (fun c => !(c == '/'))
  let head := p.data.take (p.data.length - t.length)
  if head.any (fun c => !(c == '/')) then
    String.mk ((head.reverse.dropWhile (fun c => c == '/')).reverse)
  else String.mk head

/-- `escape_cmd_arg` from the script. -/
def escape_cmd_arg (arg : String) : String :=
  if strContains arg "\"" || strContains arg " " then
    "\"" ++ (arg.replace "\"" "\\\"") ++ "\""
  else arg

/-- The `target` object of the JSON printed by `swift -print-target-info`. -/
structure TargetInfo where
  unversionedTriple : String
  triple : String
deriving DecidableEq

/-- The external world: the platform the script runs on, which external
commands succeed, the parsed `-print-target-info` JSON, and the (stripped)
stdout of the `--show-bin-path` build invocation. -/
structure World where
  isDarwin : Bool
  cmdOk : List String → Bool
  targetInfo : TargetInfo
  showBinPathOutput : String

/-- The parsed-and-resolved option record produced by `parse_args`
(the argparse namespace after the resolution code at the end of
`parse_args`).  The unused `--prefix` flag is omitted. -/
structure Args where
  package_path : String
  verbose : Bool
  configuration : String
  build_dir : String
  multiroot_data_file : Option String
  toolchain : String
  update : Bool
  no_local_deps : Bool
  build_actions : List String
  install_dir : Option String
  copy_doccrender_from : Option String
  copy_doccrender_to : Option String
  cross_compile_hosts : String
deriving DecidableEq

/-- `args.swift_exec`, set by `parse_args`:
`os.path.join(parsed.toolchain, 'bin', 'swift')`. -/
def Args.swift_exec (args : Args) : String :=
  pathJoin (pathJoin args.toolchain "bin") "swift"

/-- The raw argparse namespace before the resolution code in `parse_args`
(defaults of the `add_argument` calls already applied).  The
`--cross-compile-hosts` default `[]` and an explicit argument are both only
ever tested for truthiness or `startswith`, so the unset state is modelled
as the empty string. -/
structure RawArgs where
  package_path : String
  verbose : Bool
  configuration : String
  build_dir : Option String
  multiroot_data_file : Option String
  toolchain : String
  update : Bool
  no_local_deps : Bool
  build_actions : List String
  install_dir : Option String
  copy_doccrender_from : Option String
  copy_doccrender_to : Option String
  cross_compile_hosts : String
deriving DecidableEq

/-- The resolution code of `parse_args` (lines 49-61): derive `swift_exec`,
make `package_path` absolute relative to the script's own directory
(`repo_path = os.path.dirname(__file__)`) via `os.path.realpath`, and
default `build_dir` to `<package_path>/.build` when falsy.  `realpath` is
the ambient filesystem resolution function. -/
def parse_args (realpath : String → String) (script_dir : String) (raw : RawArgs) : Args :=
  let package_path := realpath (pathJoin script_dir raw.package_path)
  let build_dir :=
    match raw.build_dir with
    | none => pathJoin package_path ".build"
    | some d => if d == "" then pathJoin package_path ".build" else d
  { package_path := package_path
    verbose := raw.verbose
    configuration := raw.configuration
    build_dir := build_dir
    multiroot_data_file := raw.multiroot_data_file
    toolchain := raw.toolchain
    update := raw.update
    no_local_deps := raw.no_local_deps
    build_actions := raw.build_actions
    install_dir := raw.install_dir
    copy_doccrender_from := raw.copy_doccrender_from
    copy_doccrender_to := raw.copy_doccrender_to
    cross_compile_hosts := raw.cross_compile_hosts }

/-- `should_run_action` from the script. -/
def should_run_action (action_name : String) (selected_actions : List String) : Bool :=
  if selected_actions.contains action_name then true
  else if selected_actions.contains "all" then true
  else false

/-- Helper for `splitDash`: accumulate the current component (reversed). -/
def splitDashAux : List Char → List Char → List String
  | [], acc => [String.mk acc.reverse]
  | c :: cs, acc =>
    if c == '-' then String.mk acc.reverse :: splitDashAux cs []
    else splitDashAux cs (c :: acc)

/-- Python `s.split('-')`. -/
def splitDash (s : String) : List String := splitDashAux s.data []

/-- The body of `get_build_target`: pick `unversionedTriple` when it
contains `-apple-macosx`, else `triple`. -/
def build_target_of (ti : TargetInfo) : String :=
  if strContains ti.unversionedTriple "-apple-macosx" then ti.unversionedTriple
  else ti.triple

/-- `get_build_target`: run `swift -print-target-info` (an external
command), parse its JSON, and select the triple. -/
def get_build_target (w : World) (args : Args) : List Event × Res String :=
  let command := [args.swift_exec, "-print-target-info"]
  if w.cmdOk command then
    ([Event.exec command], Res.ok (build_target_of w.targetInfo))
  else
    ([Event.exec command], Res.cpe command)

/-- The first block of `get_swiftpm_options`: the common options plus
`--verbose` for verbose or install builds. -/
def swiftpm_base (action : String) (args : Args) : List String :=
  let a := ["--package-path", args.package_path,
            "--scratch-path", args.build_dir,
            "--configuration", args.configuration]
  if args.verbose || action == "install" then a ++ ["--verbose"] else a

/-- The OS-dependent rpath block of `get_swiftpm_options` (lines 163-190). -/
def os_rpath_flags (action build_os : String) : List String :=
  if strStartsWith build_os "macosx" then
    ["-Xlinker", "-rpath", "-Xlinker", "@executable_path/../lib/swift/macosx"]
  else if strStartsWith build_os "freebsd" then
    ["-Xlinker", "-rpath", "-Xlinker", "$ORIGIN/../lib/swift/freebsd"] ++
      (if action == "install" then ["--disable-local-rpath"] else [])
  else if strStartsWith build_os "openbsd" then
    ["-Xlinker", "-rpath", "-Xlinker", "$ORIGIN/../lib/swift/openbsd",
     "-Xlinker", "-z", "-Xlinker", "origin"]
  else
    ["-Xlinker", "-rpath", "-Xlinker", "$ORIGIN/../lib/swift/" ++ build_os] ++
      (if action == "install" then ["--disable-local-rpath"] else [])

/-- The cross-compile block of `get_swiftpm_options` (lines 192-197):
returns the appended flags and the stderr output. -/
def cross_compile_flags (build_os cross_compile_hosts : String) :
    List String × List Event :=
  if cross_compile_hosts == "" then ([], [])
  else if strStartsWith build_os "macosx" && strStartsWith cross_compile_hosts "macosx-" then
    (["--arch", "x86_64", "--arch", "arm64"], [])
  else
    ([], [Event.err ("cannot cross-compile for " ++ cross_compile_hosts)])

/-- The action-dependent tail of `get_swiftpm_options` (lines 199-210). -/
def action_tail_flags (action : String) : List String :=
  (if action == "install" || action == "show-bin-path" then
    ["-Xswiftc", "-no-toolchain-stdlib-rpath"] else []) ++
  (if action == "test" then ["--parallel"] else []) ++
  (if action == "show-bin-path" then ["--show-bin-path"] else [])

/-- `get_swiftpm_options` after the build OS has been extracted from the
target triple: the assembled argument list and the stderr events. -/
def swiftpm_options_core (action : String) (args : Args) (build_os : String) :
    List String × List Event :=
  let c := cross_compile_flags build_os args.cross_compile_hosts
  (swiftpm_base action args ++ os_rpath_flags action build_os ++ c.1 ++
     action_tail_flags action,
   c.2)

/-- `get_swiftpm_options`: obtain the build target (an external command),
take element 2 of `build_target.split('-')` (an out-of-range index raises
`IndexError`, modelled by `pyerr`) and assemble the options. -/
def get_swiftpm_options (w : World) (action : String) (args : Args) :
    List Event × Res (List String) :=
  match get_build_target w args with
  | (evs, Res.ok bt) =>
    match (splitDash bt).get? 2 with
    | some build_os =>
        let co := swiftpm_options_core action args build_os
        (evs ++ co.2, Res.ok co.1)
    | none => (evs, Res.pyerr)
  | (evs, Res.exit n) => (evs, Res.exit n)
  | (evs, Res.cpe c) => (evs, Res.cpe c)
  | (evs, Res.pyerr) => (evs, Res.pyerr)

/-- `check_call`: echo the command when verbose, run it; a non-zero exit
raises `CalledProcessError`, success returns 0. -/
def check_call (w : World) (verbose : Bool) (cmd : List String) : List Event × Res Nat :=
  let pre := if verbose then
    [Event.out (String.intercalate " " (cmd.map escape_cmd_arg))] else []
  if w.cmdOk cmd then (pre ++ [Event.exec cmd], Res.ok 0)
  else (pre ++ [Event.exec cmd], Res.cpe cmd)

/-- `get_call_to_invoke_swift_single_product`. -/
def get_call_to_invoke_swift_single_product (w : World) (action product : String)
    (args : Args) (swiftpm_args : List String) : List String :=
  let call := [args.swift_exec, action] ++ swiftpm_args
  let call := if w.isDarwin then call else call ++ ["--enable-test-discovery"]
  let call :=
    match args.multiroot_data_file with
    | some m => if m == "" then call else call ++ ["--multiroot-data-file", m]
    | none => call
  if action == "test" then call ++ ["--test-product", product]
  else call ++ ["--product", product]

/-- `invoke_swift_single_product` (the `SWIFT_BUILD_SCRIPT_ENVIRONMENT`
environment-variable write has no observable effect in this model). -/
def invoke_swift_single_product (w : World) (action product : String) (args : Args)
    (swiftpm_args : List String) : List Event × Res Unit :=
  let call := get_call_to_invoke_swift_single_product w action product args swiftpm_args
  mbind (check_call w args.verbose call) (fun _ => ([], Res.ok ()))

/-- `invoke_swift`: one invocation per product, in order. -/
def invoke_swift (w : World) (action : String) (products : List String) (args : Args)
    (swiftpm_args : List String) : List Event × Res Unit :=
  match products with
  | [] => ([], Res.ok ())
  | p :: rest =>
      mbind (invoke_swift_single_product w action p args swiftpm_args)
        (fun _ => invoke_swift w action rest args swiftpm_args)

/-- `update_swiftpm_dependencies`. -/
def update_swiftpm_dependencies (w : World) (package_path swift_exec build_path : String)
    (verbose : Bool) : List Event × Res Unit :=
  mbind (check_call w verbose
      [swift_exec, "package", "--package-path", package_path,
       "--scratch-path", build_path, "update"])
    (fun _ => ([], Res.ok ()))

/-- `generate_xcodeproj`. -/
def generate_xcodeproj (w : World) (package_path swift_exec : String) (verbose : Bool) :
    List Event × Res Unit :=
  let package_name := basename package_path
  let xcodeproj_path := pathJoin package_path (package_name ++ ".xcodeproj")
  mbind (check_call w verbose
      [swift_exec, "package", "--package-path", package_path,
       "generate-xcodeproj", "--output", xcodeproj_path])
    (fun _ => ([], Res.ok ()))

/-- `docc_bin_path`: assemble the show-bin-path build command, echo it when
verbose, run it (via `check_output`) and append `docc` to its stripped
output. -/
def docc_bin_path (w : World) (args : Args) (verbose : Bool) : List Event × Res String :=
  mbind (get_swiftpm_options w "show-bin-path" args) (fun spa =>
    let cmd := get_call_to_invoke_swift_single_product w "build" "docc" args spa
    let pre := if verbose then
      [Event.out (String.intercalate " " (cmd.map escape_cmd_arg))] else []
    if w.cmdOk cmd then
      (pre ++ [Event.exec cmd], Res.ok (pathJoin w.showBinPathOutput "docc"))
    else (pre ++ [Event.exec cmd], Res.cpe cmd))

/-- `create_intermediate_directories`.  `check_call` either raises or
returns 0, so the `result != 0` branch is unreachable; it is kept for
fidelity. -/
def create_intermediate_directories (w : World) (dir_path : String) (verbose : Bool) :
    List Event × Res Unit :=
  let cmd := ["mkdir", "-p", dir_path]
  mbind ([Event.out ("-- note: creating intermediate directories " ++ dir_path ++ ": " ++
           String.intercalate " " cmd)], Res.ok ())
    (fun _ => mbind (check_call w verbose cmd) (fun r =>
      if r != 0 then
        ([Event.err ("creating intermediate directories failed with exit status " ++
           toString r)], Res.exit 1)
      else ([], Res.ok ())))

/-- `check_and_sync`: copy `file_path` to `install_path` via `rsync -a`. -/
def check_and_sync (w : World) (file_path install_path : String) (verbose : Bool) :
    List Event × Res Unit :=
  let cmd := ["rsync", "-a", file_path, install_path]
  mbind ([Event.out ("-- note: installing " ++ basename file_path ++ ": " ++
           String.intercalate " " cmd)], Res.ok ())
    (fun _ => mbind (check_call w verbose cmd) (fun r =>
      if r != 0 then
        ([Event.err ("install failed with exit status " ++ toString r)], Res.exit 1)
      else ([], Res.ok ())))

/-- `install`: requires `--install-dir`; locate the built `docc`, copy it
and `features.json`, and optionally copy the render template directory. -/
def install (w : World) (args : Args) : List Event × Res Unit :=
  match args.install_dir with
  | none => ([Event.err "Missing required '--install-dir' argument."], Res.exit 1)
  | some docc_install_dir =>
    mbind (docc_bin_path w args args.verbose) (fun docc_path =>
    mbind (create_intermediate_directories w (dirname docc_install_dir) args.verbose) (fun _ =>
    mbind (check_and_sync w docc_path docc_install_dir args.verbose) (fun _ =>
    let features_path := pathJoin args.package_path "features.json"
    let features_install_path :=
      pathJoin (pathJoin (pathJoin (dirname docc_install_dir) "share") "docc") "features.json"
    mbind (create_intermediate_directories w (dirname features_install_path) args.verbose) (fun _ =>
    mbind (check_and_sync w features_path features_install_path args.verbose) (fun _ =>
    match args.copy_doccrender_from with
    | none => ([], Res.ok ())
    | some copy_render_from =>
      match args.copy_doccrender_to with
      | none =>
          ([Event.err "Missing required '--copy-doccrender-to' argument since '--copy-doccrender-from' was passed."],
           Res.exit 1)
      | some copy_render_to =>
        let from_dir_with_trailing_slash := pathJoin copy_render_from ""
        mbind (create_intermediate_directories w copy_render_to args.verbose) (fun _ =>
          check_and_sync w from_dir_with_trailing_slash copy_render_to args.verbose))))))

/-- The two stderr lines of a `FAIL:` handler in `run`. -/
def fail_step (msg : String) (cmd : List String) : List Event × Res Unit :=
  ([Event.err msg, Event.err ("Executing: " ++ String.intercalate " " cmd)], Res.exit 1)

/-- `run`: the five-stage sequence (the environment-dictionary handling has
no observable effect in this model). -/
def run (w : World) (args : Args) : List Event × Res Unit :=
  let package_name := basename args.package_path
  mbind (if args.update then
      mbind ([Event.out ("** Updating dependencies of " ++ package_name ++ " **")], Res.ok ())
        (fun _ => tryCPE
          (update_swiftpm_dependencies w args.package_path args.swift_exec args.build_dir args.verbose)
          (fun c => fail_step ("FAIL: Updating dependencies of " ++ package_name ++ " failed") c))
    else ([], Res.ok ())) (fun _ =>
  mbind (if should_run_action "build" args.build_actions then
      mbind ([Event.out ("** Building " ++ package_name ++ " **")], Res.ok ())
        (fun _ => tryCPE
          (mbind (get_swiftpm_options w "build" args)
            (fun spa => invoke_swift w "build" ["docc"] args spa))
          (fun c => fail_step ("FAIL: Building " ++ package_name ++ " failed") c))
    else ([], Res.ok ())) (fun _ =>
  mbind (if should_run_action "generate-xcodeproj" args.build_actions then
      mbind ([Event.out ("** Generating Xcode project for " ++ package_name ++ " **")], Res.ok ())
        (fun _ => tryCPE
          (generate_xcodeproj w args.package_path args.swift_exec args.verbose)
          (fun c => fail_step "FAIL: Generating the Xcode project failed" c))
    else ([], Res.ok ())) (fun _ =>
  mbind (if should_run_action "test" args.build_actions then
      mbind ([Event.out ("** Testing " ++ package_name ++ " **")], Res.ok ())
        (fun _ => tryCPE
          (mbind (get_swiftpm_options w "test" args)
            (fun spa => invoke_swift w "test" ["SwiftDocCPackageTests"] args spa))
          (fun c => fail_step ("FAIL: Testing " ++ package_name ++ " failed") c))
    else ([], Res.ok ())) (fun _ =>
  if should_run_action "install" args.build_actions then
      mbind ([Event.out ("** Installing " ++ package_name ++ " **")], Res.ok ())
        (fun _ => tryCPE
          (mbind (mbind (get_swiftpm_options w "install" args)
              (fun spa => invoke_swift w "build" ["docc"] args spa))
            (fun _ => install w args))
          (fun c => fail_step ("FAIL: Installing " ++ package_name ++ " failed") c))
    else ([], Res.ok ())))))

/-- The process exit status of a whole run: 0 on normal return, the code of
`sys.exit` otherwise; an exception escaping `run` makes the Python process
exit with status 1. -/
def run_exit_code (w : World) (args : Args) : Nat :=
  match (run w args).2 with
  | Res.ok _ => 0
  | Res.exit n => n
  | Res.cpe _ => 1
  | Res.pyerr => 1

/-- The external commands of a trace, in order. -/
def execsOf (t : List Event) : List (List String) :=
  t.filterMap (fun e => match e with | Event.exec c => some c | _ => none)

/-- The stderr lines of a trace, in order. -/
def errsOf (t : List Event) : List String :=
  t.filterMap (fun e => match e with | Event.err m => some m | _ => none)

/-- The values of the rpath linker flags contained in an argument list: every
`v` occurring as `-Xlinker -rpath -Xlinker v`. -/
def rpathArgs : List String → List String
  | a :: b :: c :: d :: rest =>
    if a == "-Xlinker" && (b == "-rpath" && c == "-Xlinker") then d :: rpathArgs rest
    else rpathArgs (b :: c :: d :: rest)
  | _ => []

/-- Whether an argument list contains the linker flags `-z origin`
(as `-Xlinker -z -Xlinker origin`). -/
def hasZOrigin : List String → Bool
  | a :: b :: c :: d :: rest =>
    if a == "-Xlinker" && (b == "-z" && (c == "-Xlinker" && d == "origin")) then true
    else hasZOrigin (b :: c :: d :: rest)
  | _ => false

/-- The per-OS rpath values claimed by the spec's table: this definition
follows the spec's words, to be compared against the flags the code
assembles. -/
def claimedRpathValues (os : String) : List String :=
  if strStartsWith os "macosx" then ["@executable_path/../lib/swift/macosx"]
  else if strStartsWith os "freebsd" then ["$ORIGIN/../lib/swift/freebsd"]
  else if strStartsWith os "openbsd" then ["$ORIGIN/../lib/swift/openbsd"]
  else ["$ORIGIN/../lib/swift/" ++ os]

/-- A Linux target-info result (`-print-target-info` output on a Linux
host). -/
def linuxTI : TargetInfo :=
  { unversionedTriple := "x86_64-unknown-linux-gnu", triple := "x86_64-unknown-linux-gnu" }

/-- A macOS target-info result. -/
def macTI : TargetInfo :=
  { unversionedTriple := "arm64-apple-macosx", triple := "arm64-apple-macosx14.0" }

/-- A non-Darwin world in which every external command succeeds. -/
def okWorld (ti : TargetInfo) (bp : String) : World :=
  { isDarwin := false, cmdOk := fun _ => true, targetInfo := ti, showBinPathOutput := bp }

/-- A non-Darwin world in which exactly the product builds of `docc` fail
(every assembled `docc` build command ends in the product name `docc`). -/
def buildFailWorld (ti : TargetInfo) (bp : String) : World :=
  { isDarwin := false, cmdOk := fun c => !(c.getLast? == some "docc"),
    targetInfo := ti, showBinPathOutput := bp }

/-- A resolved configuration that requests exactly the `install` action. -/
def installArgs (pp bd cfg tc : String) (idir rfrom rto : Option String) : Args :=
  { package_path := pp, verbose := false, configuration := cfg, build_dir := bd,
    multiroot_data_file := none, toolchain := tc, update := false, no_local_deps := false,
    build_actions := ["install"], install_dir := idir, copy_doccrender_from := rfrom,
    copy_doccrender_to := rto, cross_compile_hosts := "" }

/-- A configuration requesting a cross-compile to a non-mac pair. -/
def crossArgs : Args :=
  { installArgs "/pkg" "/pkg/.build" "debug" "/tc" none none none with
    build_actions := ["build"], cross_compile_hosts := "linux-aarch64" }

/-- A concrete model of `os.path.realpath`: resolution always yields an
absolute path. -/
def demoRealpath (s : String) : String := String.mk ('/' :: s.data)

/-- A raw argparse namespace with every default applied. -/
def rawBase : RawArgs :=
  { package_path := "", verbose := false, configuration := "debug", build_dir := none,
    multiroot_data_file := none, toolchain := "/toolchain", update := false,
    no_local_deps := false, build_actions := ["build"], install_dir := none,
    copy_doccrender_from := none, copy_doccrender_to := none, cross_compile_hosts := "" }

/-- A raw namespace in which the caller passed a relative `--build-dir`. -/
def rawRelBuildDir : RawArgs := { rawBase with build_dir := some "relative/build" }

/-- The `swift -print-target-info` command for a toolchain rooted at `tc`. -/
def tiCmdOf (tc : String) : List String :=
  [pathJoin (pathJoin tc "bin") "swift", "-print-target-info"]

/-- The `docc` build command assembled for the `install` action on a Linux
host (non-Darwin, build OS `linux`). -/
def installBuildCmd (pp bd cfg tc : String) : List String :=
  [pathJoin (pathJoin tc "bin") "swift", "build",
   "--package-path", pp, "--scratch-path", bd, "--configuration", cfg, "--verbose",
   "-Xlinker", "-rpath", "-Xlinker", "$ORIGIN/../lib/swift/linux", "--disable-local-rpath",
   "-Xswiftc", "-no-toolchain-stdlib-rpath", "--enable-test-discovery", "--product", "docc"]

/-- The `--show-bin-path` build command used by `docc_bin_path` on a Linux
host. -/
def showBinPathCmd (pp bd cfg tc : String) : List String :=
  [pathJoin (pathJoin tc "bin") "swift", "build",
   "--package-path", pp, "--scratch-path", bd, "--configuration", cfg,
   "-Xlinker", "-rpath", "-Xlinker", "$ORIGIN/../lib/swift/linux",
   "-Xswiftc", "-no-toolchain-stdlib-rpath", "--show-bin-path",
   "--enable-test-discovery", "--product", "docc"]

/-- The install path of `features.json` relative to the docc install dir. -/
def featuresInstallPath (d : String) : String :=
  pathJoin (pathJoin (pathJoin (dirname d) "share") "docc") "features.json"

/-- The eight external commands of a fully successful `install`-only run on
a Linux host: target-info query, docc build, target-info query again,
bin-path query, then the two directory creations and the two copies. -/
def successfulInstallExecs (pp bd cfg tc d bp : String) : List (List String) :=
  [tiCmdOf tc, installBuildCmd pp bd cfg tc, tiCmdOf tc, showBinPathCmd pp bd cfg tc,
   ["mkdir", "-p", dirname d],
   ["rsync", "-a", pathJoin bp "docc", d],
   ["mkdir", "-p", dirname (featuresInstallPath d)],
   ["rsync", "-a", pathJoin pp "features.json", featuresInstallPath d]]

/- ------------------------------------------------------------------ -/
/- Helper lemmas                                                       -/
/- ------------------------------------------------------------------ -/

theorem isAbs_append (a b : String) (h : isAbs a = true) : isAbs (a ++ b) = true := by
  unfold isAbs strStartsWith at h ⊢
  rw [String.data_append]
  rcases hd : a.data with _ | ⟨c, cs⟩
  · rw [hd] at h; simp [startsWithChars] at h
  · rw [hd] at h
    simp [startsWithChars] at h ⊢
    exact h

theorem isAbs_pathJoin (a b : String) (h : isAbs a = true) : isAbs (pathJoin a b) = true := by
  unfold pathJoin
  split
  · assumption
  split
  · exact isAbs_append a b h
  · exact isAbs_append (a ++ "/") b (isAbs_append a "/" h)

theorem rpathArgs_cons (a : String) (t : List String) (h : (a == "-Xlinker") = false) :
    rpathArgs (a :: t) = rpathArgs t := by
  rcases t with _ | ⟨b, _ | ⟨c, _ | ⟨d, r⟩⟩⟩
  · rfl
  · rfl
  · rfl
  · simp [rpathArgs, h]

theorem rpathArgs_cons2 (a b : String) (t : List String) (h : (b == "-rpath") = false) :
    rpathArgs (a :: b :: t) = rpathArgs (b :: t) := by
  rcases t with _ | ⟨c, _ | ⟨d, r⟩⟩
  · rfl
  · rfl
  · simp [rpathArgs, h]

theorem rpathArgs_extract (d : String) (t : List String) :
    rpathArgs ("-Xlinker" :: "-rpath" :: "-Xlinker" :: d :: t) = d :: rpathArgs t := by
  simp [rpathArgs]

theorem rpathArgs_eq_nil : (t : List String) → ¬ "-rpath" ∈ t → rpathArgs t = []
  | [], _ => rfl
  | [_], _ => rfl
  | [_, _], _ => rfl
  | [_, _, _], _ => rfl
  | a :: b :: c :: d :: r, h => by
    have hb : (b == "-rpath") = false := by
      rw [beq_eq_false_iff_ne]
      intro hbe
      exact h (by simp [hbe])
    rw [rpathArgs_cons2 a b (c :: d :: r) hb]
    exact rpathArgs_eq_nil (b :: c :: d :: r) (fun hm => h (List.mem_cons_of_mem a hm))

theorem hasZOrigin_cons (a : String) (t : List String) (h : (a == "-Xlinker") = false) :
    hasZOrigin (a :: t) = hasZOrigin t := by
  rcases t with _ | ⟨b, _ | ⟨c, _ | ⟨d, r⟩⟩⟩
  · rfl
  · rfl
  · rfl
  · simp [hasZOrigin, h]

theorem hasZOrigin_cons2 (a b : String) (t : List String) (h : (b == "-z") = false) :
    hasZOrigin (a :: b :: t) = hasZOrigin (b :: t) := by
  rcases t with _ | ⟨c, _ | ⟨d, r⟩⟩
  · rfl
  · rfl
  · simp [hasZOrigin, h]

theorem hasZOrigin_extract (t : List String) :
    hasZOrigin ("-Xlinker" :: "-z" :: "-Xlinker" :: "origin" :: t) = true := by
  simp [hasZOrigin]

theorem hasZOrigin_eq_false : (t : List String) → ¬ "-z" ∈ t → hasZOrigin t = false
  | [], _ => rfl
  | [_], _ => rfl
  | [_, _], _ => rfl
  | [_, _, _], _ => rfl
  | a :: b :: c :: d :: r, h => by
    have hb : (b == "-z") = false := by
      rw [beq_eq_false_iff_ne]
      intro hbe
      exact h (by simp [hbe])
    rw [hasZOrigin_cons2 a b (c :: d :: r) hb]
    exact hasZOrigin_eq_false (b :: c :: d :: r) (fun hm => h (List.mem_cons_of_mem a hm))

theorem origin_lib_ne (os s : String) (h : s.length < 21) :
    ¬ ("$ORIGIN/../lib/swift/" ++ os) = s := by
  intro he
  have hl := congrArg String.length he
  rw [String.length_append] at hl
  have h21 : ("$ORIGIN/../lib/swift/" : String).length = 21 := rfl
  omega

theorem origin_lib_beq_false (os s : String) (h : s.length < 21) :
    (("$ORIGIN/../lib/swift/" ++ os) == s) = false := by
  rw [beq_eq_false_iff_ne]
  exact origin_lib_ne os s h

theorem startsWithChars_head (p c : Char) (ps cs : List Char)
    (h : startsWithChars (p :: ps) (c :: cs) = true) : p = c := by
  simp only [startsWithChars, Bool.and_eq_true, beq_iff_eq] at h
  exact h.1

theorem startsWith_macosx_not_openbsd (os : String) (h : strStartsWith os "macosx" = true) :
    strStartsWith os "openbsd" = false := by
  unfold strStartsWith at h ⊢
  rcases hd : os.data with _ | ⟨c, cs⟩ <;> rw [hd] at h
  · exact absurd h (by decide)
  · have hpc : 'm' = c :=
      startsWithChars_head 'm' c ['a', 'c', 'o', 's', 'x'] cs (by exact h)
    subst hpc
    rfl

theorem startsWith_freebsd_not_openbsd (os : String) (h : strStartsWith os "freebsd" = true) :
    strStartsWith os "openbsd" = false := by
  unfold strStartsWith at h ⊢
  rcases hd : os.data with _ | ⟨c, cs⟩ <;> rw [hd] at h
  · exact absurd h (by decide)
  · have hpc : 'f' = c :=
      startsWithChars_head 'f' c ['r', 'e', 'e', 'b', 's', 'd'] cs (by exact h)
    subst hpc
    rfl

theorem rpathArgs_base_strip (action : String) (args : Args) (t : List String) :
    rpathArgs (swiftpm_base action args ++ ("-Xlinker" :: t)) =
      rpathArgs ("-Xlinker" :: t) := by
  unfold swiftpm_base
  split <;> simp [rpathArgs_cons, rpathArgs_cons2]

theorem hasZOrigin_base_strip (action : String) (args : Args) (t : List String) :
    hasZOrigin (swiftpm_base action args ++ ("-Xlinker" :: t)) =
      hasZOrigin ("-Xlinker" :: t) := by
  unfold swiftpm_base
  split <;> simp [hasZOrigin_cons, hasZOrigin_cons2]

theorem rpathArgs_core (action : String) (args : Args) (os : String) :
    rpathArgs (swiftpm_options_core action args os).1 = claimedRpathValues os := by
  have htail : rpathArgs ((cross_compile_flags os args.cross_compile_hosts).1 ++
      action_tail_flags action) = [] := by
    apply rpathArgs_eq_nil
    unfold cross_compile_flags action_tail_flags
    split_ifs <;> simp
  unfold swiftpm_options_core
  cases hm : strStartsWith os "macosx" with
  | true =>
    simp [os_rpath_flags, claimedRpathValues, hm, rpathArgs_base_strip,
      rpathArgs_extract, rpathArgs_cons, rpathArgs_cons2, htail]
  | false =>
    cases hf : strStartsWith os "freebsd" with
    | true =>
      cases hI : action == "install" <;>
        simp [os_rpath_flags, claimedRpathValues, hm, hf, hI, rpathArgs_base_strip,
          rpathArgs_extract, rpathArgs_cons, rpathArgs_cons2, htail]
    | false =>
      cases ho : strStartsWith os "openbsd" with
      | true =>
        simp [os_rpath_flags, claimedRpathValues, hm, hf, ho, rpathArgs_base_strip,
          rpathArgs_extract, rpathArgs_cons, rpathArgs_cons2, htail]
      | false =>
        cases hI : action == "install" <;>
          simp [os_rpath_flags, claimedRpathValues, hm, hf, ho, hI, rpathArgs_base_strip,
            rpathArgs_extract, rpathArgs_cons, rpathArgs_cons2, htail]

theorem hasZOrigin_core (action : String) (args : Args) (os : String) :
    hasZOrigin (swiftpm_options_core action args os).1 = strStartsWith os "openbsd" := by
  have htailZ : hasZOrigin ((cross_compile_flags os args.cross_compile_hosts).1 ++
      action_tail_flags action) = false := by
    apply hasZOrigin_eq_false
    unfold cross_compile_flags action_tail_flags
    split_ifs <;> simp
  unfold swiftpm_options_core
  cases hm : strStartsWith os "macosx" with
  | true =>
    rw [startsWith_macosx_not_openbsd os hm]
    simp [os_rpath_flags, hm, hasZOrigin_base_strip, hasZOrigin_cons,
      hasZOrigin_cons2, htailZ]
  | false =>
    cases hf : strStartsWith os "freebsd" with
    | true =>
      rw [startsWith_freebsd_not_openbsd os hf]
      cases hI : action == "install" <;>
        simp [os_rpath_flags, hm, hf, hI, hasZOrigin_base_strip, hasZOrigin_cons,
          hasZOrigin_cons2, htailZ]
    | false =>
      cases ho : strStartsWith os "openbsd" with
      | true =>
        simp [os_rpath_flags, hm, hf, ho, hasZOrigin_base_strip, hasZOrigin_cons,
          hasZOrigin_cons2, hasZOrigin_extract, htailZ]
      | false =>
        have hz : (("$ORIGIN/../lib/swift/" ++ os) == "-z") = false :=
          origin_lib_beq_false os "-z" (by decide)
        have hxl : (("$ORIGIN/../lib/swift/" ++ os) == "-Xlinker") = false :=
          origin_lib_beq_false os "-Xlinker" (by decide)
        cases hI : action == "install" <;>
          simp [os_rpath_flags, hm, hf, ho, hI, hasZOrigin_base_strip, hasZOrigin_cons,
            hasZOrigin_cons2, hz, hxl, htailZ]

theorem arch_not_in_os_rpath_flags (action os : String) :
    ¬ "--arch" ∈ os_rpath_flags action os := by
  have hne : ¬ ("--arch" : String) = "$ORIGIN/../lib/swift/" ++ os :=
    fun h => origin_lib_ne os "--arch" (by decide) h.symm
  unfold os_rpath_flags
  split_ifs <;> simp [hne]

/- ------------------------------------------------------------------ -/
/- Theorems about the claims                                           -/
/- ------------------------------------------------------------------ -/

/-- C7: `should_run_action a actions` is true if and only if `a` is in
`actions` or `"all"` is in `actions`; in particular requesting `all` is
equivalent to requesting each of the four individual actions. -/
theorem should_run_action_all_equiv (a : String) (acts : List String)
    (_h : a = "build" ∨ a = "test" ∨ a = "generate-xcodeproj" ∨ a = "install") :
    should_run_action a acts = true ↔ (a ∈ acts ∨ "all" ∈ acts) := by
  have hca : (acts.contains a = true) ↔ a ∈ acts := by simp [List.contains]
  have hcall : (acts.contains "all" = true) ↔ "all" ∈ acts := by simp [List.contains]
  rw [← hca, ← hcall]
  cases hc1 : acts.contains a <;> cases hc2 : acts.contains "all" <;>
    simp [should_run_action, hc1, hc2]
  · exact ⟨fun hm => by simp [hca.mpr hm] at hc1; exact hc1 hm,
           fun hm => by simp [hcall.mpr hm] at hc2; exact hc2 hm⟩
  · exact Or.inr (hcall.mp hc2)
  · exact Or.inl (hca.mp hc1)
  · exact Or.inl (hca.mp hc1)

/-- C7 witness: at a concrete action and action list. -/
theorem should_run_action_all_equiv_witness :
    should_run_action "build" ["all"] = true ↔
      ("build" ∈ ["all"] ∨ "all" ∈ ["all"]) :=
  should_run_action_all_equiv "build" ["all"] (Or.inl rfl)

/-- C8: for every configuration and build OS, the argument list assembled
for the `test` action contains `--parallel`. -/
theorem test_options_contain_parallel (args : Args) (os : String) :
    "--parallel" ∈ (swiftpm_options_core "test" args os).1 := by
  simp [swiftpm_options_core, action_tail_flags]

/-- C9: when `--build-dir` is absent (or empty, which is also falsy in
Python), the resolved build directory is the resolved package path joined
with `.build`. -/
theorem build_dir_defaults_to_dot_build (realpath : String → String) (script_dir : String)
    (raw : RawArgs) (h : raw.build_dir = none ∨ raw.build_dir = some "") :
    (parse_args realpath script_dir raw).build_dir =
      pathJoin (parse_args realpath script_dir raw).package_path ".build" := by
  rcases h with h | h <;> simp [parse_args, h]

/-- C9 witness: with the default raw namespace (no `--build-dir`). -/
theorem build_dir_defaults_to_dot_build_witness :
    (parse_args demoRealpath "/repo" rawBase).build_dir =
      pathJoin (parse_args demoRealpath "/repo" rawBase).package_path ".build" :=
  build_dir_defaults_to_dot_build demoRealpath "/repo" rawBase (Or.inl rfl)

/-- C10: `get_build_target` returns the `unversionedTriple` field exactly
when that field contains `-apple-macosx`, and otherwise the `triple`
field. -/
theorem target_triple_field_selection (args : Args) (ti : TargetInfo) (bp : String) :
    (get_build_target (okWorld ti bp) args).2 = Res.ok (build_target_of ti) ∧
    (strContains ti.unversionedTriple "-apple-macosx" = true →
      build_target_of ti = ti.unversionedTriple) ∧
    (strContains ti.unversionedTriple "-apple-macosx" = false →
      build_target_of ti = ti.triple) := by
  refine ⟨rfl, fun h => ?_, fun h => ?_⟩ <;> simp [build_target_of, h]

/-- C10 witness: a macOS triple selects `unversionedTriple`, a Linux triple
selects `triple`. -/
theorem target_triple_field_selection_witness :
    build_target_of macTI = macTI.unversionedTriple ∧
    build_target_of linuxTI = linuxTI.triple :=
  ⟨(target_triple_field_selection (installArgs "/p" "/b" "debug" "/t" none none none)
      macTI "/x").2.1 (by decide),
   (target_triple_field_selection (installArgs "/p" "/b" "debug" "/t" none none none)
      linuxTI "/x").2.2 (by decide)⟩

/-- C5 (amended): after `parse_args`, the package path is absolute and is
resolved against the script's own directory (not the caller's working
directory), and the defaulted build directory is absolute; but a
caller-provided non-empty `--build-dir` is taken verbatim. -/
theorem parse_args_path_resolution (realpath : String → String) (script_dir : String)
    (raw : RawArgs) (habs : ∀ s, isAbs (realpath s) = true) :
    isAbs (parse_args realpath script_dir raw).package_path = true ∧
    (parse_args realpath script_dir raw).package_path =
      realpath (pathJoin script_dir raw.package_path) ∧
    (raw.build_dir = none → isAbs (parse_args realpath script_dir raw).build_dir = true) ∧
    (∀ d, raw.build_dir = some d → (d == "") = false →
      (parse_args realpath script_dir raw).build_dir = d) := by
  refine ⟨habs _, rfl, fun h => ?_, fun d hd hne => ?_⟩
  · simp only [parse_args, h]
    exact isAbs_pathJoin _ _ (habs _)
  · simp [parse_args, hd, hne]

/-- C5 witness: with a concrete absolute-result realpath and the default
raw namespace. -/
theorem parse_args_path_resolution_witness :
    isAbs (parse_args demoRealpath "/repo" rawBase).package_path = true :=
  (parse_args_path_resolution demoRealpath "/repo" rawBase (fun _ => rfl)).1

/-- C5 counterexample: a caller-provided relative `--build-dir` stays
relative in the resolved configuration, so not all paths are absolute. -/
theorem parse_args_relative_build_dir_stays_relative :
    (parse_args demoRealpath "/repo" rawRelBuildDir).build_dir = "relative/build" ∧
    isAbs (parse_args demoRealpath "/repo" rawRelBuildDir).build_dir = false := by
  exact ⟨rfl, rfl⟩

/-- C3: for every action and configuration, the assembled argument list
contains exactly the rpath value fixed for the build OS family —
`@executable_path/../lib/swift/macosx` for `macosx*`,
`$ORIGIN/../lib/swift/freebsd` for `freebsd*`,
`$ORIGIN/../lib/swift/openbsd` for `openbsd*`, and
`$ORIGIN/../lib/swift/<os>` otherwise — and contains the linker flags
`-z origin` exactly for `openbsd*`. -/
theorem rpath_flags_exact (action : String) (args : Args) (os : String) :
    rpathArgs (swiftpm_options_core action args os).1 = claimedRpathValues os ∧
    hasZOrigin (swiftpm_options_core action args os).1 = strStartsWith os "openbsd" :=
  ⟨rpathArgs_core action args os, hasZOrigin_core action args os⟩

/-- C4: with a non-empty `--cross-compile-hosts`, the supported combination
(build OS `macosx*` and hosts string starting `macosx-`) extends the
argument list with `--arch x86_64 --arch arm64` and prints nothing; every
other combination prints a `cannot cross-compile` message to stderr, adds
no `--arch` flag, and still yields an argument list (the run is not
aborted). -/
theorem cross_compile_soft_failure (action : String) (args : Args) (os : String)
    (hx : ¬ args.cross_compile_hosts = "")
    (h1 : ¬ args.package_path = "--arch")
    (h2 : ¬ args.build_dir = "--arch")
    (h3 : ¬ args.configuration = "--arch") :
    ((strStartsWith os "macosx" && strStartsWith args.cross_compile_hosts "macosx-") = true →
      (swiftpm_options_core action args os).2 = [] ∧
      ∃ pre post, (swiftpm_options_core action args os).1 =
        pre ++ ["--arch", "x86_64", "--arch", "arm64"] ++ post) ∧
    ((strStartsWith os "macosx" && strStartsWith args.cross_compile_hosts "macosx-") = false →
      (swiftpm_options_core action args os).2 =
        [Event.err ("cannot cross-compile for " ++ args.cross_compile_hosts)] ∧
      ((swiftpm_options_core action args os).1.contains "--arch") = false) := by
  have hxb : (args.cross_compile_hosts == "") = false := by
    rw [beq_eq_false_iff_ne]; exact hx
  constructor
  · intro hcc
    constructor
    · simp [swiftpm_options_core, cross_compile_flags, hxb, hcc]
    · refine ⟨swiftpm_base action args ++ os_rpath_flags action os,
        action_tail_flags action, ?_⟩
      simp [swiftpm_options_core, cross_compile_flags, hxb, hcc, List.append_assoc]
  · intro hcc
    have h1' : ¬ ("--arch" : String) = args.package_path := fun e => h1 e.symm
    have h2' : ¬ ("--arch" : String) = args.build_dir := fun e => h2 e.symm
    have h3' : ¬ ("--arch" : String) = args.configuration := fun e => h3 e.symm
    have hosf := arch_not_in_os_rpath_flags action os
    have hmem : ¬ "--arch" ∈ (swiftpm_options_core action args os).1 := by
      unfold swiftpm_options_core swiftpm_base cross_compile_flags action_tail_flags
      split_ifs <;> simp_all
    constructor
    · simp [swiftpm_options_core, cross_compile_flags, hxb, hcc]
    · cases hc : (swiftpm_options_core action args os).1.contains "--arch"
      · rfl
      · exact absurd (by simpa [List.contains] using hc) hmem

/-- C4 witness: a concrete unsupported pair (Linux host, Linux cross
target) prints the message and adds no `--arch` flag. -/
theorem cross_compile_soft_failure_witness :
    (swiftpm_options_core "build" crossArgs "linux").2 =
      [Event.err ("cannot cross-compile for " ++ crossArgs.cross_compile_hosts)] ∧
    ((swiftpm_options_core "build" crossArgs "linux").1.contains "--arch") = false :=
  (cross_compile_soft_failure "build" crossArgs "linux" (by decide) (by decide) (by decide)
    (by decide)).2 (by decide)

/-- C2: requesting `install` (with `--install-dir` set) performs the
toolchain build invocation before any copy: in a fully successful run the
external commands are exactly the target-info query, the docc build, the
target-info and bin-path queries, and only then the `mkdir`/`rsync` copy
commands, with exit status 0; in a world where the docc build fails, the
run stops after the build command (no `mkdir`/`rsync` is ever invoked) and
exits with status 1. -/
theorem install_build_precedes_copy (pp bd cfg tc d bp : String) :
    execsOf (run (okWorld linuxTI bp) (installArgs pp bd cfg tc (some d) none none)).1 =
      successfulInstallExecs pp bd cfg tc d bp ∧
    run_exit_code (okWorld linuxTI bp) (installArgs pp bd cfg tc (some d) none none) = 0 ∧
    execsOf (run (buildFailWorld linuxTI bp) (installArgs pp bd cfg tc (some d) none none)).1 =
      [tiCmdOf tc, installBuildCmd pp bd cfg tc] ∧
    run_exit_code (buildFailWorld linuxTI bp) (installArgs pp bd cfg tc (some d) none none) = 1 := by
  exact ⟨rfl, rfl, rfl, rfl⟩

/-- C1 (amended): requesting `install` without `--install-dir` exits with
status 1 and the error naming `--install-dir`, but only after two external
commands (the target-info query and the docc build) have already been
invoked; the failure does come before any bin-path query, `mkdir` or
`rsync`. -/
theorem install_missing_install_dir (pp bd cfg tc bp : String) :
    (run (okWorld linuxTI bp) (installArgs pp bd cfg tc none none none)).1 =
      [Event.out ("** Installing " ++ basename pp ++ " **"),
       Event.exec (tiCmdOf tc),
       Event.exec (installBuildCmd pp bd cfg tc),
       Event.err "Missing required '--install-dir' argument."] ∧
    run_exit_code (okWorld linuxTI bp) (installArgs pp bd cfg tc none none none) = 1 := by
  exact ⟨rfl, rfl⟩

/-- C1 counterexample: a concrete `install` run without `--install-dir`
exits 1 with the expected message, yet its trace contains external
commands, refuting "this failure occurs before any external command is
invoked". -/
theorem install_missing_install_dir_runs_externals :
    run_exit_code (okWorld linuxTI "/binpath")
      (installArgs "/pkg" "/pkg/.build" "debug" "/tc" none none none) = 1 ∧
    errsOf (run (okWorld linuxTI "/binpath")
      (installArgs "/pkg" "/pkg/.build" "debug" "/tc" none none none)).1 =
      ["Missing required '--install-dir' argument."] ∧
    execsOf (run (okWorld linuxTI "/binpath")
      (installArgs "/pkg" "/pkg/.build" "debug" "/tc" none none none)).1 ≠ [] := by
  refine ⟨rfl, rfl, ?_⟩
  decide

/-- C6 (amended): with `--copy-doccrender-from` set and
`--copy-doccrender-to` unset, the run exits 1 with the error naming
`--copy-doccrender-to`, and the render-template copy is never invoked —
but the docc executable and `features.json` copies have already been
performed (the external commands are exactly those of a successful
install). -/
theorem render_from_without_to (pp bd cfg tc d f bp : String) :
    execsOf (run (okWorld linuxTI bp)
        (installArgs pp bd cfg tc (some d) (some f) none)).1 =
      successfulInstallExecs pp bd cfg tc d bp ∧
    errsOf (run (okWorld linuxTI bp)
        (installArgs pp bd cfg tc (some d) (some f) none)).1 =
      ["Missing required '--copy-doccrender-to' argument since '--copy-doccrender-from' was passed."] ∧
    run_exit_code (okWorld linuxTI bp) (installArgs pp bd cfg tc (some d) (some f) none) = 1 := by
  exact ⟨rfl, rfl, rfl⟩

/-- C6 counterexample: in a concrete run with `--copy-doccrender-from` set
and `--copy-doccrender-to` unset, the run fails as claimed but the docc
binary has already been copied (`rsync` appears in the trace), refuting
"no copy is performed". -/
theorem render_missing_to_copies_already_made :
    run_exit_code (okWorld linuxTI "/binpath")
      (installArgs "/pkg" "/pkg/.build" "debug" "/tc" (some "/inst/docc") (some "/render") none) = 1 ∧
    errsOf (run (okWorld linuxTI "/binpath")
      (installArgs "/pkg" "/pkg/.build" "debug" "/tc" (some "/inst/docc") (some "/render") none)).1 =
      ["Missing required '--copy-doccrender-to' argument since '--copy-doccrender-from' was passed."] ∧
    (execsOf (run (okWorld linuxTI "/binpath")
      (installArgs "/pkg" "/pkg/.build" "debug" "/tc" (some "/inst/docc") (some "/render") none)).1).contains
      ["rsync", "-a", "/binpath/docc", "/inst/docc"] = true := by
  exact ⟨rfl, rfl, by decide⟩

end BuildScript
